import Mathlib

/-
Verification of the mph Meter configurator model layer
(`src/config_app/mph_meter_configurator.py`, class `MphMeter`).

The Python model class is shallowly embedded here:
  - Python ints are ℤ, Python floats are idealised as exact rationals ℚ
    (every concrete value used below is a dyadic rational, on which the
    idealisation agrees bit for bit with IEEE double arithmetic);
  - the serial port is a `MeterState`: an open/closed flag, a script of
    device-side behaviours consumed one `_runcmd` call at a time, and a log
    of the command lines written to the wire;
  - Python exceptions become an `Except PyErr` result, with the exception
    classes of the source (`NotConnectedError`, `LostConnectionError`,
    `BoundaryError`, `ReplyError`) and the builtin `ValueError`,
    `TypeError` and `NameError` as constructors.
-/

namespace MphMeter

/-- A Python value as it flows through the model class: an int, a float
(idealised as an exact rational), or a str. -/
inductive PyVal where
  | intVal (n : ℤ)
  | floatVal (q : ℚ)
  | strVal (s : String)
deriving DecidableEq

/-- The exceptions the model layer can raise.  `boundaryError` carries the
`text` and `value` attributes of the source class; `replyError` carries
`text` and the optional `value` payload (the `parts` list for `read`). -/
inductive PyErr where
  | notConnected
  | lostConnection
  | boundaryError (text : String) (value : PyVal)
  | replyError (text : String) (value : Option (List PyVal))
  | valueError
  | typeError
  | nameError (missing : String)
deriving DecidableEq

/-- Decidable equality for `Except`, needed to evaluate concrete model runs. -/
instance {ε α : Type} [DecidableEq ε] [DecidableEq α] : DecidableEq (Except ε α) := fun x y =>
  match x, y with
  | .ok a, .ok b => if h : a = b then .isTrue (by rw [h]) else .isFalse (by simp [h])
  | .error a, .error b => if h : a = b then .isTrue (by rw [h]) else .isFalse (by simp [h])
  | .ok _, .error _ => .isFalse (by simp)
  | .error _, .ok _ => .isFalse (by simp)

/-- Device-side behaviour of one `write`/`read_until` exchange on the wire:
a full line arrives, the 0.9 s read timeout expires with only `received`
bytes (no terminator) in the buffer, or pyserial raises `SerialException`. -/
inductive WireOutcome where
  | line (text : String)
  | timeout (received : String)
  | fault
deriving DecidableEq

/-- State of the `serial.Serial` object owned by an `MphMeter` instance,
together with the scripted device behaviour and a log of command lines
written so far.  An exhausted script behaves as a silent device (read
timeout with no data). -/
structure MeterState where
  serial_open : Bool
  script : List WireOutcome
  sent : List String
deriving DecidableEq

/-- ASCII whitespace stripped by Python `str.strip()`. -/
def pyIsSpace (c : Char) : Bool :=
  c = ' ' || c = '\t' || c = '\n' || c = '\r' || c = '\x0b' || c = '\x0c'

/-- Python `str.strip()` on the ASCII text of a reply. -/
def pyStrip (s : String) : String :=
  ⟨((s.toList.dropWhile pyIsSpace).reverse.dropWhile pyIsSpace).reverse⟩

def digitVal (c : Char) : ℕ := c.toNat - 48

def digitsVal (cs : List Char) : ℕ := cs.foldl (fun a c => 10 * a + digitVal c) 0

def allDigits (cs : List Char) : Bool := !cs.isEmpty && cs.all Char.isDigit

/-- Python `int(str)` on the core grammar: optional surrounding whitespace,
an optional sign, then a nonempty run of ASCII digits.  (Underscore digit
separators and non-ASCII digits are outside the modelled core.) -/
def pyParseInt (s : String) : Option ℤ :=
  match (pyStrip s).toList with
  | '+' :: cs => if allDigits cs then some ((digitsVal cs : ℕ) : ℤ) else none
  | '-' :: cs => if allDigits cs then some (-((digitsVal cs : ℕ) : ℤ)) else none
  | cs => if allDigits cs then some ((digitsVal cs : ℕ) : ℤ) else none

/-
The field operations of `ℚ` (`Rat.add`, `Rat.mul`, `Rat.inv`, …) are marked
irreducible upstream, so a kernel evaluation of a concrete model run would
get stuck on them.  The model therefore computes on `ℚ` through the
following reducible forms, each proved equal to the corresponding field
operation (`qMul_eq`, `qAdd_eq`, …); the source operations they stand for
are noted at each use site.
-/

/-- Multiplication on `ℚ` in kernel-reducible form. -/
def qMul (a b : ℚ) : ℚ := mkRat (a.num * b.num) (a.den * b.den)

/-- Addition on `ℚ` in kernel-reducible form. -/
def qAdd (a b : ℚ) : ℚ := mkRat (a.num * b.den + b.num * a.den) (a.den * b.den)

/-- Negation on `ℚ` in kernel-reducible form. -/
def qNeg (a : ℚ) : ℚ := mkRat (-a.num) a.den

/-- Multiplication of a `ℚ` by an integer in kernel-reducible form. -/
def qMulInt (a : ℚ) (n : ℤ) : ℚ := mkRat (a.num * n) a.den

/-- Division of a `ℚ` by a natural number in kernel-reducible form. -/
def qDivNat (a : ℚ) (d : ℕ) : ℚ := mkRat a.num (a.den * d)

/-- The power `(10 : ℚ) ^ e` for an integer `e`, in kernel-reducible form. -/
def qPow10 (e : ℤ) : ℚ := if 0 ≤ e then mkRat (10 ^ e.toNat) 1 else mkRat 1 (10 ^ (-e).toNat)

theorem qMul_eq (a b : ℚ) : qMul a b = a * b := by
  rw [qMul, Rat.mkRat_eq_div]
  push_cast
  rw [← div_mul_div_comm, Rat.num_div_den, Rat.num_div_den]

theorem qAdd_eq (a b : ℚ) : qAdd a b = a + b := by
  rw [qAdd, Rat.mkRat_eq_div]
  push_cast
  conv_rhs => rw [← Rat.num_div_den a, ← Rat.num_div_den b]
  rw [div_add_div _ _ (Nat.cast_ne_zero.mpr a.den_nz) (Nat.cast_ne_zero.mpr b.den_nz)]
  ring_nf

theorem qNeg_eq (a : ℚ) : qNeg a = -a := by
  rw [qNeg, Rat.mkRat_eq_div]
  push_cast
  rw [neg_div, Rat.num_div_den]

theorem qMulInt_eq (a : ℚ) (n : ℤ) : qMulInt a n = a * (n : ℚ) := by
  rw [qMulInt, Rat.mkRat_eq_div]
  push_cast
  rw [mul_div_right_comm, Rat.num_div_den]

theorem qDivNat_eq (a : ℚ) (d : ℕ) : qDivNat a d = a / (d : ℚ) := by
  rw [qDivNat, Rat.mkRat_eq_div]
  push_cast
  rw [← div_div, Rat.num_div_den]

theorem qPow10_eq (e : ℤ) : qPow10 e = (10 : ℚ) ^ e := by
  rw [qPow10]
  split
  case isTrue h =>
    rw [Rat.mkRat_eq_div]
    push_cast
    rw [div_one, ← zpow_natCast, Int.toNat_of_nonneg h]
  case isFalse h =>
    rw [Rat.mkRat_eq_div]
    push_cast
    rw [← zpow_natCast, Int.toNat_of_nonneg (by omega), one_div, ← zpow_neg, neg_neg]

/-- Mantissa of a Python float literal: `digits`, `digits.`, `digits.digits`
or `.digits`, valued as the exact rational the decimal literal denotes. -/
def pyFloatMantissa (cs : List Char) : Option ℚ :=
  let ip := cs.takeWhile Char.isDigit
  let rest := cs.dropWhile Char.isDigit
  match rest with
  | [] => if ip.isEmpty then none else some (mkRat (digitsVal ip) 1)
  | '.' :: fp =>
      if (ip.isEmpty && fp.isEmpty) || !fp.all Char.isDigit then none
      else some (mkRat (digitsVal ip * 10 ^ fp.length + digitsVal fp) (10 ^ fp.length))
  | _ => none

/-- Exponent part of a Python float literal, the characters after `e`/`E`. -/
def pyFloatExp (cs : List Char) : Option ℤ :=
  match cs with
  | '+' :: ds => if allDigits ds then some ((digitsVal ds : ℕ) : ℤ) else none
  | '-' :: ds => if allDigits ds then some (-((digitsVal ds : ℕ) : ℤ)) else none
  | ds => if allDigits ds then some ((digitsVal ds : ℕ) : ℤ) else none

def pyFloatBody (cs : List Char) : Option ℚ :=
  let m := cs.takeWhile (fun c => !(c = 'e' || c = 'E'))
  let r := cs.dropWhile (fun c => !(c = 'e' || c = 'E'))
  match r with
  | [] => pyFloatMantissa m
  | _ :: ds => do
      let mv ← pyFloatMantissa m
      let e ← pyFloatExp ds
      pure (qMul mv (qPow10 e))

/-- Python `float(str)` on the core grammar: optional surrounding
whitespace, optional sign, mantissa, optional exponent.  The value is
idealised as the exact rational the literal denotes.  (`inf`, `nan` and
underscore separators are outside the modelled core.) -/
def pyParseFloat (s : String) : Option ℚ :=
  match (pyStrip s).toList with
  | '+' :: cs => pyFloatBody cs
  | '-' :: cs => (pyFloatBody cs).map qNeg
  | cs => pyFloatBody cs

/-- Python `int(float)`: truncation toward zero, on the exact-rational
idealisation of the float.  `Int.tdiv` of the numerator by the denominator
of the reduced fraction is exactly truncation toward zero. -/
def pyIntOfRat (q : ℚ) : ℤ := Int.tdiv q.num (q.den : ℤ)

/-- Python `str.split` with separator `;`: field accumulator over the
characters, emitting a field at each separator; the empty string yields a
single empty field, matching Python. -/
def splitSemiAux : List Char → List Char → List String
  | [], acc => [⟨acc.reverse⟩]
  | ';' :: cs, acc => (⟨acc.reverse⟩ : String) :: splitSemiAux cs []
  | c :: cs, acc => splitSemiAux cs (c :: acc)

def pySplitSemi (s : String) : List String := splitSemiAux s.toList []

/-- Numeric view of a `PyVal`, used where the source compares or multiplies
a value numerically. -/
def pyToQ : PyVal → Option ℚ
  | .intVal n => some (n : ℚ)
  | .floatVal q => some q
  | .strVal _ => none

/-- Python `repr` of a quote-free ASCII reply string (single quotes around
the text), used only to build the `Incorrect reply received` message. -/
def pyRepr (s : String) : String := "\x27" ++ s ++ "\x27"

/-- `MphMeter._runcmd(cmd)`: raises `NotConnectedError` when the port is
closed; otherwise writes the command line and reads one reply, consuming
the next scripted wire behaviour.  A `SerialException` closes the port and
raises `LostConnectionError`; a full line or a read timeout yields the
received text stripped of surrounding whitespace (an exhausted script is a
silent device: timeout with no data, hence the empty reply). -/
def runcmd (st : MeterState) (cmd : String) : MeterState × Except PyErr String :=
  if st.serial_open then
    match st.script with
    | .fault :: rest =>
        ({ st with serial_open := false, script := rest, sent := st.sent ++ [cmd] },
         .error .lostConnection)
    | .line t :: rest =>
        ({ st with script := rest, sent := st.sent ++ [cmd] }, .ok (pyStrip t))
    | .timeout t :: rest =>
        ({ st with script := rest, sent := st.sent ++ [cmd] }, .ok (pyStrip t))
    | [] => ({ st with sent := st.sent ++ [cmd] }, .ok "")
  else (st, .error .notConnected)

/-- `MphMeter._setvalue(cmd, value, name, b_low, b_high, unit)`: checks the
port is open, then the inclusive bounds (raising `BoundaryError` with the
formatted message and the offending value), then runs the command and
classifies the reply (`ERR`, empty, other, `OK`).  The source compares
`b_low <= value <= b_high` numerically; `value` is numeric on every path
that reaches this function, and a non-numeric value is mapped to the
`TypeError` such a Python comparison would raise. -/
def setvalue (st : MeterState) (cmd : String) (value : PyVal) (name : String)
    (b_low b_high : ℤ) (unit : String) : MeterState × Except PyErr Unit :=
  if st.serial_open then
    match pyToQ value with
    | none => (st, .error .typeError)
    | some q =>
      if (b_low : ℚ) ≤ q ∧ q ≤ (b_high : ℚ) then
        match runcmd st cmd with
        | (st1, .error e) => (st1, .error e)
        | (st1, .ok reply) =>
          if reply = "ERR" then
            (st1, .error (.replyError ("Error setting " ++ name ++ " value") none))
          else if reply = "" then
            (st1, .error (.replyError "No reply received" none))
          else if reply ≠ "OK" then
            (st1, .error (.replyError ("Incorrect reply received: " ++ pyRepr reply) none))
          else (st1, .ok ())
      else
        (st, .error (.boundaryError
          (name ++ " must be between " ++ toString b_low ++ unit ++ " and "
            ++ toString b_high ++ unit ++ "!") value))
  else (st, .error .notConnected)

/-- Python `str.format` with the `d` format code, as used to build the
`d…`/`m…` command strings: an int formats as its decimal digits; a float
or str raises `ValueError` (unknown format code `d` for that type). -/
def pyFormatIntCode (head : String) (v : PyVal) : Except PyErr String :=
  match v with
  | .intVal n => .ok (head ++ toString n)
  | _ => .error .valueError

/-- `MphMeter.set_debounce(value)`: the argument `'d{:d}'.format(value)` is
evaluated before `_setvalue` is entered, so a value that the `d` format
code rejects raises `ValueError` before the connection and bounds checks. -/
def set_debounce (st : MeterState) (value : PyVal) : MeterState × Except PyErr Unit :=
  match pyFormatIntCode "d" value with
  | .error e => (st, .error e)
  | .ok cmd => setvalue st cmd value "debounce time (ms)" 0 999999 "ms"

/-- `MphMeter.set_muempp(value)`: same shape as `set_debounce` with the `m`
command and the `[0, 999999999]` bounds. -/
def set_muempp (st : MeterState) (value : PyVal) : MeterState × Except PyErr Unit :=
  match pyFormatIntCode "m" value with
  | .error e => (st, .error e)
  | .ok cmd => setvalue st cmd value "µm per Pulse" 0 999999999 "µm/pulse"

/-- `MphMeter.set_vcrit(value)`: the command is `'t{:d}'.format(int(value*1000))`,
evaluated before `_setvalue` is entered: the value is multiplied by 1000
(`qMulInt · 1000` is `· * 1000` on the rational idealisation, `qMulInt_eq`)
and truncated toward zero by `int()` (`pyIntOfRat`).  A str value enters
Python string repetition and is modelled as the dynamic error path. -/
def set_vcrit (st : MeterState) (value : PyVal) : MeterState × Except PyErr Unit :=
  match pyToQ value with
  | none => (st, .error .typeError)
  | some q =>
      setvalue st ("t" ++ toString (pyIntOfRat (qMulInt q 1000))) value "V(crit)" 0 15 "V"

/-- The three settable parameters of the meter. -/
inductive Param where
  | debounce
  | muempp
  | vcrit
deriving DecidableEq

/-- Dispatch of `setValue` per parameter, i.e. the three `set_…` methods. -/
def setParam : Param → MeterState → PyVal → MeterState × Except PyErr Unit
  | .debounce => set_debounce
  | .muempp => set_muempp
  | .vcrit => set_vcrit

/-- Low bound of each parameter, from the `_setvalue` call sites. -/
def pLow : Param → ℤ
  | .debounce => 0
  | .muempp => 0
  | .vcrit => 0

/-- High bound of each parameter, from the `_setvalue` call sites. -/
def pHigh : Param → ℤ
  | .debounce => 999999
  | .muempp => 999999999
  | .vcrit => 15

/-- The `BoundaryError` message built by `_setvalue` for each parameter. -/
def pMsg : Param → String
  | .debounce => "debounce time (ms) must be between 0ms and 999999ms!"
  | .muempp => "µm per Pulse must be between 0µm/pulse and 999999999µm/pulse!"
  | .vcrit => "V(crit) must be between 0V and 15V!"

/-- The wire command each parameter setter builds for a given value. -/
def pCmd : Param → PyVal → String
  | .debounce, .intVal n => "d" ++ toString n
  | .muempp, .intVal n => "m" ++ toString n
  | .vcrit, v =>
      match pyToQ v with
      | some q => "t" ++ toString (pyIntOfRat (qMulInt q 1000))
      | none => ""
  | _, _ => ""

/-- Values for which building the command string succeeds: ints for the
two `{:d}`-formatted parameters, any numeric value for `set_vcrit`. -/
def pFormats : Param → PyVal → Bool
  | .debounce, .intVal _ => true
  | .muempp, .intVal _ => true
  | .vcrit, .intVal _ => true
  | .vcrit, .floatVal _ => true
  | _, _ => false

/-- Whether a result is a raised `BoundaryError`. -/
def isBoundaryErr {α : Type} : Except PyErr α → Bool
  | .error (.boundaryError _ _) => true
  | _ => false

/-- The `DEFAULTS` dict of the source. -/
def DEFAULTS_muempp : ℤ := 43000

def DEFAULTS_debounce : ℤ := 0

def DEFAULTS_vwarn : ℚ := mkRat 15 2

/-- `MphMeter.set_defaults()`: programs the defaults in the fixed source
order debounce, then µm/pulse, then V(crit); an exception from any setter
propagates and aborts the rest of the sequence. -/
def set_defaults (st : MeterState) : MeterState × Except PyErr Unit :=
  match set_debounce st (.intVal DEFAULTS_debounce) with
  | (st1, .error e) => (st1, .error e)
  | (st1, .ok _) =>
    match set_muempp st1 (.intVal DEFAULTS_muempp) with
    | (st2, .error e) => (st2, .error e)
    | (st2, .ok _) => set_vcrit st2 (.floatVal DEFAULTS_vwarn)

/-- The in-place conversion loop of `MphMeter.read` on the five fields:
`parts[0]` and `parts[1]` become ints, `parts[2]` stays a str, `parts[3]`
and `parts[4]` become floats divided by 1000 (`qDivNat · 1000` is `· / 1000`
on the rational idealisation, `qDivNat_eq`).  Each assignment mutates
`parts` as it happens, so the `ReplyError` payload of a later failure
carries the already-converted earlier fields. -/
def convertParts (p0 p1 p2 p3 p4 : String) : Except PyErr (List PyVal) :=
  match pyParseInt p0 with
  | none => .error (.replyError "Could not convert data."
      (some [.strVal p0, .strVal p1, .strVal p2, .strVal p3, .strVal p4]))
  | some n0 =>
  match pyParseInt p1 with
  | none => .error (.replyError "Could not convert data."
      (some [.intVal n0, .strVal p1, .strVal p2, .strVal p3, .strVal p4]))
  | some n1 =>
  match pyParseFloat p3 with
  | none => .error (.replyError "Could not convert data."
      (some [.intVal n0, .intVal n1, .strVal p2, .strVal p3, .strVal p4]))
  | some q3 =>
  match pyParseFloat p4 with
  | none => .error (.replyError "Could not convert data."
      (some [.intVal n0, .intVal n1, .strVal p2, .floatVal (qDivNat q3 1000), .strVal p4]))
  | some q4 =>
      .ok [.intVal n0, .intVal n1, .strVal p2, .floatVal (qDivNat q3 1000),
           .floatVal (qDivNat q4 1000)]

/-- `MphMeter.read()`: runs `r`, splits the reply on `;`, raises
`ReplyError` with the raw fields when the count is not 5, otherwise
converts the fields in place and returns the converted list. -/
def read (st : MeterState) : MeterState × Except PyErr (List PyVal) :=
  match runcmd st "r" with
  | (st1, .error e) => (st1, .error e)
  | (st1, .ok reply) =>
    let parts := pySplitSemi reply
    if h5 : parts.length = 5 then
      (st1, convertParts (parts.get ⟨0, by omega⟩) (parts.get ⟨1, by omega⟩)
        (parts.get ⟨2, by omega⟩) (parts.get ⟨3, by omega⟩) (parts.get ⟨4, by omega⟩))
    else
      (st1, .error (.replyError "Incorrect reply received (Number of items missmatched)."
        (some (parts.map PyVal.strVal))))

/-- `MphMeter.disconnect()`: closes the port if open; a no-op otherwise. -/
def disconnect (st : MeterState) : MeterState := { st with serial_open := false }

/-- The module-level name `test` read by `MphMeter.connect` at
`mph_meter_configurator.py:137` is never bound anywhere in the module, so
evaluating it raises `NameError`; the environment lookup is `none`. -/
def testGlobal : Option Bool := none

/-- `MphMeter.connect(port)`: first an unconditional `disconnect()`, then
the port open (its success is the `openOk` input; failure is caught and
reported as `(False, 'Could not open serial port')`).  On a successful
open the source evaluates the unbound global `test`, which raises
`NameError` past the cleanup at line 146, leaving the port open.  The
dead branches behind the lookup are still modelled faithfully. -/
def connect (st : MeterState) (openOk : Bool) : MeterState × Except PyErr (Bool × String) :=
  let st1 := disconnect st
  if openOk then
    let st2 := { st1 with serial_open := true }
    match testGlobal with
    | none => (st2, .error (.nameError "test"))
    | some t =>
      if t then
        match runcmd st2 "i" with
        | (st3, .error e) => (st3, .error e)
        | (st3, .ok r) =>
          if r = "mph Meter" then (st3, .ok (true, ""))
          else ({ st3 with serial_open := false },
                .ok (false, "mph Meter did not respond at given serial port"))
      else (st2, .ok (true, ""))
  else (st1, .ok (false, "Could not open serial port"))

/-- The fixed deadline (seconds) `flash_fw` passes to `Popen.wait`. -/
def FLASH_DEADLINE : ℕ := 10

/-- `MphMeter.flash_fw(port)`: spawns avrdude and waits up to
`FLASH_DEADLINE` seconds.  `runSeconds` is how long the process runs and
`code` its exit code; the result is `(processKilled, returnValue)`:
`wait` raising `TimeoutExpired` kills the process and returns `False`,
otherwise a nonzero exit code returns `False` and zero returns `True`. -/
def flash_fw (runSeconds : ℕ) (code : ℤ) : Bool × Bool :=
  if FLASH_DEADLINE < runSeconds then (true, false)
  else (false, if code ≠ 0 then false else true)

/-
Helper lemmas about `runcmd` and `setvalue`, shared by the claim theorems.
-/

/-- On an open port, `runcmd` always appends the command to the wire log,
whatever the device does. -/
theorem runcmd_open_sent (st : MeterState) (cmd : String)
    (hopen : st.serial_open = true) :
    (runcmd st cmd).1.sent = st.sent ++ [cmd] := by
  rcases st with ⟨o, sc, sent⟩
  simp only at hopen
  subst hopen
  rcases sc with _ | ⟨w, rest⟩
  · simp [runcmd]
  · cases w <;> simp [runcmd]

/-- On an open port with an in-bounds numeric value, `setvalue` passes the
bounds check: it never raises `BoundaryError`, and the command goes out on
the wire. -/
theorem setvalue_inbounds (st : MeterState) (cmd : String) (v : PyVal) (q : ℚ)
    (name : String) (b_low b_high : ℤ) (unit : String)
    (hopen : st.serial_open = true) (hq : pyToQ v = some q)
    (hcond : (b_low : ℚ) ≤ q ∧ q ≤ (b_high : ℚ)) :
    isBoundaryErr (setvalue st cmd v name b_low b_high unit).2 = false ∧
    (setvalue st cmd v name b_low b_high unit).1.sent = st.sent ++ [cmd] := by
  rcases st with ⟨o, sc, sent⟩
  simp only at hopen
  subst hopen
  simp only [setvalue, if_true, hq, if_pos hcond]
  rcases sc with _ | ⟨w, rest⟩
  · simp [runcmd, isBoundaryErr]
  · cases w
    case line t =>
      simp only [runcmd]
      by_cases h1 : pyStrip t = "ERR"
      · simp [h1, isBoundaryErr]
      · by_cases h2 : pyStrip t = ""
        · simp [h1, h2, isBoundaryErr]
        · by_cases h3 : pyStrip t = "OK"
          · simp [h1, h2, h3, isBoundaryErr]
          · simp [h1, h2, h3, isBoundaryErr]
    case timeout t =>
      simp only [runcmd]
      by_cases h1 : pyStrip t = "ERR"
      · simp [h1, isBoundaryErr]
      · by_cases h2 : pyStrip t = ""
        · simp [h1, h2, isBoundaryErr]
        · by_cases h3 : pyStrip t = "OK"
          · simp [h1, h2, h3, isBoundaryErr]
          · simp [h1, h2, h3, isBoundaryErr]
    case fault =>
      simp [runcmd, isBoundaryErr]

/-- On an open port with an out-of-bounds numeric value, `setvalue` raises
`BoundaryError` with the formatted message and the offending value, and
leaves the state (wire log included) unchanged. -/
theorem setvalue_outbounds (st : MeterState) (cmd : String) (v : PyVal) (q : ℚ)
    (name : String) (b_low b_high : ℤ) (unit : String)
    (hopen : st.serial_open = true) (hq : pyToQ v = some q)
    (hcond : ¬((b_low : ℚ) ≤ q ∧ q ≤ (b_high : ℚ))) :
    setvalue st cmd v name b_low b_high unit =
      (st, .error (.boundaryError (name ++ " must be between " ++ toString b_low ++ unit
        ++ " and " ++ toString b_high ++ unit ++ "!") v)) := by
  rcases st with ⟨o, sc, sent⟩
  simp only at hopen
  subst hopen
  simp only [setvalue, if_true, hq, if_neg hcond]

/-- C1: for every parameter (debounce, µm/pulse, V(crit)) and every value
whose command string formats, with the port open: a value equal to the low
or high bound passes the client-side validation — no `BoundaryError` is
raised and the command is written to the wire — while a value below the
low bound or above the high bound raises `BoundaryError` carrying the
bounds message and the offending value, with the state unchanged, so no
command is sent. -/
theorem spec_c1_bounds (p : Param) (st : MeterState) (v : PyVal) (q : ℚ)
    (hopen : st.serial_open = true) (hfmt : pFormats p v = true)
    (hq : pyToQ v = some q) :
    ((q = ((pLow p : ℤ) : ℚ) ∨ q = ((pHigh p : ℤ) : ℚ)) →
      isBoundaryErr (setParam p st v).2 = false ∧
      (setParam p st v).1.sent = st.sent ++ [pCmd p v]) ∧
    ((q < ((pLow p : ℤ) : ℚ) ∨ ((pHigh p : ℤ) : ℚ) < q) →
      setParam p st v = (st, .error (.boundaryError (pMsg p) v))) := by
  have hlh : ∀ pp : Param, ((pLow pp : ℤ) : ℚ) ≤ ((pHigh pp : ℤ) : ℚ) := by
    intro pp
    cases pp <;> norm_num [pLow, pHigh]
  constructor
  · intro h
    have hcond : ((pLow p : ℤ) : ℚ) ≤ q ∧ q ≤ ((pHigh p : ℤ) : ℚ) := by
      rcases h with h | h
      · rw [h]; exact ⟨le_refl _, hlh p⟩
      · rw [h]; exact ⟨hlh p, le_refl _⟩
    cases p <;> cases v <;> simp [pFormats] at hfmt
    · simp only [setParam, set_debounce, pyFormatIntCode, pCmd, pyToQ]
      exact setvalue_inbounds st _ _ _ _ _ _ _ hopen hq (by simpa [pLow, pHigh] using hcond)
    · simp only [setParam, set_muempp, pyFormatIntCode, pCmd, pyToQ]
      exact setvalue_inbounds st _ _ _ _ _ _ _ hopen hq (by simpa [pLow, pHigh] using hcond)
    · simp only [setParam, set_vcrit, pCmd, pyToQ]
      exact setvalue_inbounds st _ _ _ _ _ _ _ hopen hq (by simpa [pLow, pHigh] using hcond)
    · simp only [setParam, set_vcrit, pCmd, pyToQ]
      exact setvalue_inbounds st _ _ _ _ _ _ _ hopen hq (by simpa [pLow, pHigh] using hcond)
  · intro h
    have hcond : ¬(((pLow p : ℤ) : ℚ) ≤ q ∧ q ≤ ((pHigh p : ℤ) : ℚ)) := by
      rintro ⟨h1, h2⟩
      rcases h with h | h <;> linarith
    cases p <;> cases v <;> simp [pFormats] at hfmt
    · simp only [setParam, set_debounce, pyFormatIntCode, pyToQ]
      rw [setvalue_outbounds st _ _ q _ _ _ _ hopen hq (by simpa [pLow, pHigh] using hcond)]
      have hm : ("debounce time (ms)" ++ " must be between " ++ toString (0 : ℤ) ++ "ms"
          ++ " and " ++ toString (999999 : ℤ) ++ "ms" ++ "!") = pMsg .debounce := by decide
      rw [hm]
    · simp only [setParam, set_muempp, pyFormatIntCode, pyToQ]
      rw [setvalue_outbounds st _ _ q _ _ _ _ hopen hq (by simpa [pLow, pHigh] using hcond)]
      have hm : ("µm per Pulse" ++ " must be between " ++ toString (0 : ℤ) ++ "µm/pulse"
          ++ " and " ++ toString (999999999 : ℤ) ++ "µm/pulse" ++ "!") = pMsg .muempp := by
        decide
      rw [hm]
    · simp only [setParam, set_vcrit, pyToQ]
      rw [setvalue_outbounds st _ _ q _ _ _ _ hopen hq (by simpa [pLow, pHigh] using hcond)]
      have hm : ("V(crit)" ++ " must be between " ++ toString (0 : ℤ) ++ "V"
          ++ " and " ++ toString (15 : ℤ) ++ "V" ++ "!") = pMsg .vcrit := by decide
      rw [hm]
    · simp only [setParam, set_vcrit, pyToQ]
      rw [setvalue_outbounds st _ _ q _ _ _ _ hopen hq (by simpa [pLow, pHigh] using hcond)]
      have hm : ("V(crit)" ++ " must be between " ++ toString (0 : ℤ) ++ "V"
          ++ " and " ++ toString (15 : ℤ) ++ "V" ++ "!") = pMsg .vcrit := by decide
      rw [hm]

/-- Witness for C1: with the port open and the device replying `OK`,
setting debounce to its low bound 0 passes validation and sends `d0`,
while setting it to 1000000 (one above the high bound) raises the
`BoundaryError` and sends nothing. -/
theorem spec_c1_bounds_witness :
    (isBoundaryErr (setParam .debounce ⟨true, [.line "OK"], []⟩ (.intVal 0)).2 = false ∧
     (setParam .debounce ⟨true, [.line "OK"], []⟩ (.intVal 0)).1.sent =
       ([] : List String) ++ [pCmd .debounce (.intVal 0)]) ∧
    setParam .debounce ⟨true, [.line "OK"], []⟩ (.intVal 1000000) =
      (⟨true, [.line "OK"], []⟩, .error (.boundaryError (pMsg .debounce) (.intVal 1000000))) :=
  ⟨(spec_c1_bounds .debounce ⟨true, [.line "OK"], []⟩ (.intVal 0) 0 rfl rfl (by decide)).1
      (Or.inl (by decide)),
   (spec_c1_bounds .debounce ⟨true, [.line "OK"], []⟩ (.intVal 1000000) 1000000 rfl rfl
      (by decide)).2 (Or.inr (by decide))⟩

/-- C2 (counterexample): the claim says `setValue(criticalVoltage, v)`
converts by `round(v*1000)` for every in-bounds `v`.  At the in-bounds
value `v = 125/64000 = 0.001953125` (exactly representable in binary
floating point, so Python computes `v*1000 = 1.953125` exactly) the code
sends `t1` — `int()` truncates — while `round(v*1000) = 2`, so the claimed
encoding `t2` differs from the sent command. -/
theorem spec_c2_counterexample :
    (set_vcrit ⟨true, [.line "OK"], []⟩ (.floatVal (mkRat 125 64000))).1.sent = ["t1"] ∧
    round ((mkRat 125 64000 : ℚ) * 1000) = 2 ∧
    ("t" ++ toString (round ((mkRat 125 64000 : ℚ) * 1000))) ≠ "t1" := by
  have hr : round ((mkRat 125 64000 : ℚ) * 1000) = 2 := by
    have hv : (mkRat 125 64000 : ℚ) = 125 / 64000 := by
      rw [Rat.mkRat_eq_div]; norm_num
    rw [hv, round_eq]
    norm_num
  refine ⟨by decide, hr, ?_⟩
  rw [hr]
  decide

/-- C2 (amended): for every in-bounds criticalVoltage value `v`, `set_vcrit`
converts volts to millivolts by `int(v*1000)` — truncation toward zero —
and sends `t` followed by that integer; in particular `set_vcrit` at 7.5
sends exactly `t7500` and succeeds on an `OK` reply. -/
theorem spec_c2_amended (st : MeterState) (v : PyVal) (q : ℚ)
    (hopen : st.serial_open = true) (hq : pyToQ v = some q)
    (hlo : 0 ≤ q) (hhi : q ≤ 15) :
    (set_vcrit st v).1.sent = st.sent ++ ["t" ++ toString (pyIntOfRat (q * 1000))] ∧
    set_vcrit ⟨true, [.line "OK"], []⟩ (.floatVal (mkRat 15 2)) =
      (⟨true, [], ["t7500"]⟩, .ok ()) := by
  refine ⟨?_, by decide⟩
  cases v <;> simp only [pyToQ, Option.some.injEq] at hq
  case strVal s => exact absurd hq (by simp)
  case intVal n =>
    subst hq
    simp only [set_vcrit, pyToQ]
    have hm : qMulInt ((n : ℤ) : ℚ) 1000 = ((n : ℤ) : ℚ) * 1000 := by
      rw [qMulInt_eq]; norm_num
    rw [hm]
    exact (setvalue_inbounds st _ (PyVal.intVal n) ((n : ℤ) : ℚ) _ _ _ _ hopen rfl
      ⟨by exact_mod_cast hlo, by exact_mod_cast hhi⟩).2
  case floatVal x =>
    subst hq
    simp only [set_vcrit, pyToQ]
    have hm : qMulInt x 1000 = x * 1000 := by
      rw [qMulInt_eq]; norm_num
    rw [hm]
    exact (setvalue_inbounds st _ (PyVal.floatVal x) x _ _ _ _ hopen rfl
      ⟨by exact_mod_cast hlo, by exact_mod_cast hhi⟩).2

/-- Witness for C2 (amended) at 7.5 V on an open port. -/
theorem spec_c2_amended_witness :
    (set_vcrit ⟨true, [.line "OK"], []⟩ (.floatVal (mkRat 15 2))).1.sent =
      ([] : List String) ++ ["t" ++ toString (pyIntOfRat ((mkRat 15 2 : ℚ) * 1000))] :=
  (spec_c2_amended ⟨true, [.line "OK"], []⟩ (.floatVal (mkRat 15 2)) (mkRat 15 2) rfl rfl
    (by decide) (by decide)).1

/-- C3 (counterexample): the claim says a timed-out `flash_fw` returns a
distinct `Timeout` outcome, never conflated with `Failure`.  The code
returns a plain boolean: a run killed after exceeding the 10 s deadline
(here 11 s, exit code 0) and a failing run (5 s, exit code 1) both return
`False` — the timeout outcome is indistinguishable from failure. -/
theorem spec_c3_counterexample :
    flash_fw 11 0 = (true, false) ∧ flash_fw 5 1 = (false, false) ∧
    (flash_fw 11 0).2 = (flash_fw 5 1).2 := by decide

/-- C3 (amended): `flash_fw` kills the programmer process exactly when the
10-second deadline is exceeded and then returns `False`; on completion
within the deadline it returns `True` for exit code 0 and `False` for any
other exit code — timeout and failure share the same `False` result. -/
theorem spec_c3_amended (runSeconds : ℕ) (code : ℤ) :
    (flash_fw runSeconds code).1 = decide (FLASH_DEADLINE < runSeconds) ∧
    ((flash_fw runSeconds code).2 = true ↔ runSeconds ≤ FLASH_DEADLINE ∧ code = 0) := by
  unfold flash_fw
  by_cases h : FLASH_DEADLINE < runSeconds
  · rw [if_pos h]
    constructor
    · simp [h]
    · constructor
      · intro hf
        simp at hf
      · rintro ⟨hs, _⟩
        exact absurd hs (by omega)
  · rw [if_neg h]
    constructor
    · simp [h]
    · by_cases hc : code = 0
      · simp only [hc]
        simp
        omega
      · simp [hc]

/-- C4: `read` on the reply `43000;0;1.2;7500;12000` returns exactly the
decoded list (µm/pulse 43000, debounce 0, version `1.2`, V(crit) 7.5 V,
battery 12.0 V, the voltages being the reported millivolts divided by
1000); a reply whose field count is not 5 yields the count-mismatch
`ReplyError` carrying the raw fields and no converted list; and whenever
all numeric fields of a 5-field reply parse, the converted list holds the
two parsed millivolt values divided by 1000. -/
theorem spec_c4_read (s : String) (sc : List WireOutcome) (sent : List String)
    (p0 p1 p2 p3 p4 : String) (n0 n1 : ℤ) (q3 q4 : ℚ)
    (hcount : (pySplitSemi (pyStrip s)).length ≠ 5)
    (h0 : pyParseInt p0 = some n0) (h1 : pyParseInt p1 = some n1)
    (h3 : pyParseFloat p3 = some q3) (h4 : pyParseFloat p4 = some q4) :
    (read ⟨true, [.line "43000;0;1.2;7500;12000"], []⟩).2 =
      .ok [.intVal 43000, .intVal 0, .strVal "1.2", .floatVal (7.5 : ℚ),
           .floatVal (12.0 : ℚ)] ∧
    (read ⟨true, .line s :: sc, sent⟩).2 =
      .error (.replyError "Incorrect reply received (Number of items missmatched)."
        (some ((pySplitSemi (pyStrip s)).map PyVal.strVal))) ∧
    convertParts p0 p1 p2 p3 p4 =
      .ok [.intVal n0, .intVal n1, .strVal p2, .floatVal (q3 / 1000),
           .floatVal (q4 / 1000)] := by
  refine ⟨?_, ?_, ?_⟩
  · have e1 : (7.5 : ℚ) = mkRat 15 2 := by rw [Rat.mkRat_eq_div]; norm_num
    have e2 : (12.0 : ℚ) = mkRat 12 1 := by rw [Rat.mkRat_eq_div]; norm_num
    rw [e1, e2]
    decide
  · simp only [read, runcmd, if_true]
    rw [dif_neg hcount]
  · have d3 : qDivNat q3 1000 = q3 / 1000 := by rw [qDivNat_eq]; norm_num
    have d4 : qDivNat q4 1000 = q4 / 1000 := by rw [qDivNat_eq]; norm_num
    simp only [convertParts, h0, h1, h3, h4, d3, d4]

/-- Witness for C4: the short reply `1;2` (two fields) hits the
count-mismatch error, and the example fields all parse and convert. -/
theorem spec_c4_read_witness :
    (read ⟨true, [.line "1;2"], []⟩).2 =
      .error (.replyError "Incorrect reply received (Number of items missmatched)."
        (some ((pySplitSemi (pyStrip "1;2")).map PyVal.strVal))) ∧
    convertParts "43000" "0" "1.2" "7500" "12000" =
      .ok [.intVal 43000, .intVal 0, .strVal "1.2",
           .floatVal ((mkRat 7500 1 : ℚ) / 1000), .floatVal ((mkRat 12000 1 : ℚ) / 1000)] :=
  (spec_c4_read "1;2" [] [] "43000" "0" "1.2" "7500" "12000" 43000 0 (mkRat 7500 1)
    (mkRat 12000 1) (by decide) (by decide) (by decide) (by decide) (by decide)).2

/-- C5 (counterexample): the claim says the parse-failure payload is the
raw field strings for every position of the failing field.  On the 5-field
reply `+1;0;v;x;2` the float conversion of field 3 (`x`) fails, but the
payload is the list mutated in place: fields 0 and 1 are already the ints
1 and 0 — the raw string `+1` is not preserved. -/
theorem spec_c5_counterexample :
    (read ⟨true, [.line "+1;0;v;x;2"], []⟩).2 =
      .error (.replyError "Could not convert data."
        (some [.intVal 1, .intVal 0, .strVal "v", .strVal "x", .strVal "2"])) ∧
    ([PyVal.intVal 1, .intVal 0, .strVal "v", .strVal "x", .strVal "2"] : List PyVal) ≠
      [.strVal "+1", .strVal "0", .strVal "v", .strVal "x", .strVal "2"] := by decide

/-- C5 (amended): on a 5-field reply where a numeric field fails to parse,
`read` fails with the `Could not convert data.` `ReplyError` whose payload
is the parts list in its partially-converted state: fields before the
failing one appear converted (in-place mutation), while the failing field
and all later fields remain the raw strings. -/
theorem spec_c5_amended (p0 p1 p2 p3 p4 : String) (n0 n1 : ℤ) (q3 : ℚ) :
    (pyParseInt p0 = none →
      convertParts p0 p1 p2 p3 p4 = .error (.replyError "Could not convert data."
        (some [.strVal p0, .strVal p1, .strVal p2, .strVal p3, .strVal p4]))) ∧
    (pyParseInt p0 = some n0 → pyParseInt p1 = none →
      convertParts p0 p1 p2 p3 p4 = .error (.replyError "Could not convert data."
        (some [.intVal n0, .strVal p1, .strVal p2, .strVal p3, .strVal p4]))) ∧
    (pyParseInt p0 = some n0 → pyParseInt p1 = some n1 → pyParseFloat p3 = none →
      convertParts p0 p1 p2 p3 p4 = .error (.replyError "Could not convert data."
        (some [.intVal n0, .intVal n1, .strVal p2, .strVal p3, .strVal p4]))) ∧
    (pyParseInt p0 = some n0 → pyParseInt p1 = some n1 → pyParseFloat p3 = some q3 →
      pyParseFloat p4 = none →
      convertParts p0 p1 p2 p3 p4 = .error (.replyError "Could not convert data."
        (some [.intVal n0, .intVal n1, .strVal p2, .floatVal (q3 / 1000), .strVal p4]))) := by
  refine ⟨fun h0 => ?_, fun h0 h1 => ?_, fun h0 h1 h3 => ?_, fun h0 h1 h3 h4 => ?_⟩
  · simp only [convertParts, h0]
  · simp only [convertParts, h0, h1]
  · simp only [convertParts, h0, h1, h3]
  · have d3 : qDivNat q3 1000 = q3 / 1000 := by rw [qDivNat_eq]; norm_num
    simp only [convertParts, h0, h1, h3, h4, d3]

/-- Witness for C5 (amended): the fields of `+1;0;v;x;2`, failing at the
float conversion of field 3. -/
theorem spec_c5_amended_witness :
    convertParts "+1" "0" "v" "x" "2" = .error (.replyError "Could not convert data."
      (some [.intVal 1, .intVal 0, .strVal "v", .strVal "x", .strVal "2"])) :=
  (spec_c5_amended "+1" "0" "v" "x" "2" 1 0 0).2.2.1 (by decide) (by decide) (by decide)

/-- C6: a `SerialException` during an exchange closes the port (state
becomes disconnected) and raises `LostConnectionError`; a subsequent
command on that state, with no reconnect, raises `NotConnectedError` and
leaves the state untouched.  A read timeout with no data is not an error:
the reply is the empty string. -/
theorem spec_c6_transport (st : MeterState) (cmd cmd2 : String) (rest : List WireOutcome)
    (hopen : st.serial_open = true) :
    (st.script = .fault :: rest →
      (runcmd st cmd).2 = .error .lostConnection ∧
      (runcmd st cmd).1.serial_open = false ∧
      (runcmd (runcmd st cmd).1 cmd2).2 = .error .notConnected ∧
      (runcmd (runcmd st cmd).1 cmd2).1 = (runcmd st cmd).1) ∧
    (st.script = .timeout "" :: rest → (runcmd st cmd).2 = .ok "") := by
  rcases st with ⟨o, sc, sent⟩
  simp only at hopen
  subst hopen
  constructor
  · intro hs
    simp only at hs
    subst hs
    exact ⟨rfl, rfl, rfl, rfl⟩
  · intro hs
    simp only at hs
    subst hs
    rfl

/-- Witness for C6: a scripted fault on `d0` then a follow-up `r`, and a
scripted empty timeout on `r`. -/
theorem spec_c6_transport_witness :
    ((runcmd ⟨true, [.fault], []⟩ "d0").2 = .error .lostConnection ∧
     (runcmd ⟨true, [.fault], []⟩ "d0").1.serial_open = false ∧
     (runcmd (runcmd ⟨true, [.fault], []⟩ "d0").1 "r").2 = .error .notConnected ∧
     (runcmd (runcmd ⟨true, [.fault], []⟩ "d0").1 "r").1 =
       (runcmd ⟨true, [.fault], []⟩ "d0").1) ∧
    (runcmd ⟨true, [.timeout ""], []⟩ "r").2 = .ok "" :=
  ⟨(spec_c6_transport ⟨true, [.fault], []⟩ "d0" "r" [] rfl).1 rfl,
   (spec_c6_transport ⟨true, [.timeout ""], []⟩ "r" "i" [] rfl).2 rfl⟩

/-- C7: with the port closed, every operation other than
`connect`/`disconnect` — a raw command, `read`, and each parameter setter
with a well-typed value — fails with `NotConnectedError` and returns the
state unchanged: nothing is written to the wire (the `sent` log is intact)
and nothing is read (the device script is not consumed). -/
theorem spec_c7_closed_ops (st : MeterState) (cmd : String) (n : ℤ) (q : ℚ)
    (hclosed : st.serial_open = false) :
    runcmd st cmd = (st, .error .notConnected) ∧
    read st = (st, .error .notConnected) ∧
    set_debounce st (.intVal n) = (st, .error .notConnected) ∧
    set_muempp st (.intVal n) = (st, .error .notConnected) ∧
    set_vcrit st (.intVal n) = (st, .error .notConnected) ∧
    set_vcrit st (.floatVal q) = (st, .error .notConnected) := by
  rcases st with ⟨o, sc, sent⟩
  simp only at hclosed
  subst hclosed
  exact ⟨rfl, rfl, rfl, rfl, rfl, rfl⟩

/-- Witness for C7 on a closed idle state. -/
theorem spec_c7_closed_ops_witness :
    runcmd ⟨false, [], []⟩ "r" = (⟨false, [], []⟩, .error .notConnected) ∧
    read ⟨false, [], []⟩ = (⟨false, [], []⟩, .error .notConnected) ∧
    set_debounce ⟨false, [], []⟩ (.intVal 0) = (⟨false, [], []⟩, .error .notConnected) ∧
    set_muempp ⟨false, [], []⟩ (.intVal 0) = (⟨false, [], []⟩, .error .notConnected) ∧
    set_vcrit ⟨false, [], []⟩ (.intVal 0) = (⟨false, [], []⟩, .error .notConnected) ∧
    set_vcrit ⟨false, [], []⟩ (.floatVal 0) = (⟨false, [], []⟩, .error .notConnected) :=
  spec_c7_closed_ops ⟨false, [], []⟩ "r" 0 0 rfl

/-- C8 (code bug evidence): `connect` does disconnect first, and a failed
port open returns `(False, 'Could not open serial port')` with the state
disconnected; but whenever the port opens successfully, evaluating the
unbound module-level name `test` raises `NameError`, skipping both the
identity verification and the cleanup, and leaving the port open. -/
theorem spec_c8_connect_nameerror (st : MeterState) :
    (connect st true).2 = .error (.nameError "test") ∧
    (connect st true).1.serial_open = true ∧
    connect st false = ({ st with serial_open := false },
      .ok (false, "Could not open serial port")) := by
  rcases st with ⟨o, sc, sent⟩
  exact ⟨rfl, rfl, rfl⟩

/-- C9: `set_defaults` programs debounce 0, then µm/pulse 43000, then
V(crit) 7.5 V, in that order: with the device acknowledging every command
the wire log is exactly `d0`, `m43000`, `t7500`; when the second command
is answered `ERR` the sequence stops with the `ReplyError` — `d0` has
already been sent and acknowledged, and `t7500` is never sent, with no
rollback of the applied debounce value. -/
theorem spec_c9_defaults :
    set_defaults ⟨true, [.line "OK", .line "OK", .line "OK"], []⟩ =
      (⟨true, [], ["d0", "m43000", "t7500"]⟩, .ok ()) ∧
    set_defaults ⟨true, [.line "OK", .line "ERR"], []⟩ =
      (⟨true, [], ["d0", "m43000"]⟩,
       .error (.replyError "Error setting µm per Pulse value" none)) := by decide

/-- C10: for every non-integer value — a float or a str — `set_debounce`
and `set_muempp` raise `ValueError` while formatting the command string,
before the connection-state check and the bounds check: the state (open or
closed, any script, any log) is returned unchanged, so such inputs never
produce `NotConnectedError` or `BoundaryError` and nothing is sent. -/
theorem spec_c10_format_precedes_checks (st : MeterState) (q : ℚ) (s : String) :
    set_debounce st (.floatVal q) = (st, .error .valueError) ∧
    set_muempp st (.floatVal q) = (st, .error .valueError) ∧
    set_debounce st (.strVal s) = (st, .error .valueError) ∧
    set_muempp st (.strVal s) = (st, .error .valueError) :=
  ⟨rfl, rfl, rfl, rfl⟩

end MphMeter
